import Mathlib

set_option maxRecDepth 100000

/-
Verification of the Legal AI Assistant application (src/legal_ai_app.py).

The program is a Streamlit form front-end with five functions, each of which
collects fields, formats a system prompt and a user prompt by Python f-string
interpolation, and calls one chat-completion endpoint through
make_api_request.  This development embeds the string-building code, the
required-field validation gates, the completion client, and the PDF text
extraction join, and proves the behavioural claims about them.

Conventions of the embedding:
  - Python strings are Lean String values; f-string interpolation becomes
    String append, keeping the exact literal segments of the source,
    including the 12-space indentation of continuation lines inside the
    triple-quoted templates and their trailing spaces.
  - A Python conditional expression  x if c else y  becomes an if-then-else.
  - Python truthiness of a string is pyTruthy, of a list is List.isEmpty
    negated (written out at each use site exactly as the source branches).
  - A conditionally bound local name (duration, compensation in the drafting
    branch) is an Option String: none when the binding statement did not run.
  - The requests library call is a transport function argument; its result is
    a TransportResult.  The streamlit st.error and st.warning displays are
    collected in errors and warnings lists.  Exceptions never escape the
    try/except of make_api_request, so the embedding is a total function.
-/

namespace LegalAI

/-- Python str.lower for the ASCII strings this app interpolates
(analysis_type.lower() and similar calls). -/
def pyLower (s : String) : String := ⟨s.data.map Char.toLower⟩

/-- Python string truthiness: a string is truthy exactly when non-empty. -/
def pyTruthy (s : String) : Bool := !(s == "")

/-- The whitespace characters removed by Python str.strip: space, tab,
newline, carriage return, vertical tab, form feed. -/
def pyIsSpace (c : Char) : Bool :=
  c = ' ' || c = '\t' || c = '\n' || c = '\r' || c = Char.ofNat 11 || c = Char.ofNat 12

/-- Python str.strip: drop leading and trailing whitespace. -/
def pyStrip (s : String) : String :=
  ⟨((s.data.dropWhile pyIsSpace).reverse.dropWhile pyIsSpace).reverse⟩

/-- Python f-string rendering of a bool, as in Include recommendations:
followed by the interpolated checkbox value. -/
def pyBoolStr (b : Bool) : String := if b then "True" else "False"

/-- The single-quote character used by the Python repr of a string. -/
def pySq : String := String.singleton (Char.ofNat 39)

/-- Python str applied to a list of strings, as produced when an f-string
interpolates a multiselect list directly: bracketed, comma-separated,
each element single-quoted; the empty list prints as two brackets. -/
def pyListRepr (l : List String) : String :=
  "[" ++ String.intercalate ", " (l.map (fun x => pySq ++ x ++ pySq)) ++ "]"

/-- The pattern  sep.join(l) if l else dflt  used for every multiselect
inside the system-prompt templates. -/
def joinOrDefault (l : List String) (dflt : String) : String :=
  if l.isEmpty then dflt else String.intercalate ", " l

/- ----------------------------------------------------------------
Completion client: make_api_request (src/legal_ai_app.py lines 60-95)
---------------------------------------------------------------- -/

/-- One role-tagged chat message of the request body. -/
structure Message where
  role : String
  content : String

/-- The JSON body posted to the chat-completion endpoint. The temperature
literal 0.3 is represented exactly as the rational 3/10. -/
structure RequestBody where
  model : String
  messages : List Message
  max_tokens : Nat
  temperature : Rat

/-- One outbound HTTP request as assembled by make_api_request: URL,
headers, JSON body and the client-side timeout in seconds. -/
structure ApiRequest where
  url : String
  headers : List (String × String)
  body : RequestBody
  timeout : Nat

/-- What the requests.post call produces, seen from make_api_request:
either a raised requests.exceptions.RequestException (connection failure,
client deadline), or a response with an HTTP status code, a reason phrase,
and the outcome of evaluating response.json() indexed down to the first
choice message content (Except.error holds the str of the exception that
indexing or JSON decoding raised). -/
inductive TransportResult where
  | exn (detail : String)
  | response (status : Nat) (reason : String) (parse : Except String String)

/-- The observable outcome of one make_api_request call: the returned value
(None becomes none), the st.error messages displayed, and the list of
network requests issued. -/
structure ApiOutcome where
  result : Option String
  errors : List String
  requests : List ApiRequest

/-- The fixed endpoint URL of the requests.post call. -/
def openrouterUrl : String := "https://openrouter.ai/api/v1/chat/completions"

/-- The headers and data dictionaries built by make_api_request before the
post: bearer authorization, fixed model identifier, exactly the system
message followed by the user message, max_tokens 2000, temperature 0.3,
timeout 60. -/
def buildRequest (apiKey prompt systemPrompt : String) : ApiRequest :=
  { url := openrouterUrl
  , headers := [("Authorization", "Bearer " ++ apiKey), ("Content-Type", "application/json")]
  , body :=
    { model := "openai/gpt-4o-mini"
    , messages := [{ role := "system", content := systemPrompt },
                   { role := "user", content := prompt }]
    , max_tokens := 2000
    , temperature := 3 / 10 }
  , timeout := 60 }

/-- The str of the HTTPError that response.raise_for_status() raises on a
4xx or 5xx status: the status code, Client or Server Error, the reason
phrase and the URL. -/
def httpErrorMsg (status : Nat) (reason url : String) : String :=
  if status < 500 then
    toString status ++ (" Client Error: " ++ (reason ++ (" for url: " ++ url)))
  else
    toString status ++ (" Server Error: " ++ (reason ++ (" for url: " ++ url)))

/-- make_api_request: fails fast with the sidebar error and no request when
the stored api_key is empty (Python falsiness of the string); otherwise
issues exactly one request.  raise_for_status raises for any 4xx or 5xx
status, the raised RequestException is displayed as API request failed,
and any exception from decoding or indexing the response body is displayed
as An error occurred; both paths return None rather than propagating. -/
def makeApiRequest (apiKey : String) (transport : ApiRequest → TransportResult)
    (prompt systemPrompt : String) : ApiOutcome :=
  if apiKey = "" then
    { result := none
    , errors := ["Please enter your OpenRouter API key in the sidebar."]
    , requests := [] }
  else
    let req := buildRequest apiKey prompt systemPrompt
    match transport req with
    | .exn d =>
        { result := none, errors := ["API request failed: " ++ d], requests := [req] }
    | .response status reason parse =>
        if 400 ≤ status ∧ status < 600 then
          { result := none
          , errors := ["API request failed: " ++ httpErrorMsg status reason openrouterUrl]
          , requests := [req] }
        else
          match parse with
          | .ok c => { result := some c, errors := [], requests := [req] }
          | .error d =>
              { result := none, errors := ["An error occurred: " ++ d], requests := [req] }

/- ----------------------------------------------------------------
Document extractor: the PDF branch (src/legal_ai_app.py lines 162-167)
---------------------------------------------------------------- -/

/-- Python newline-separator join over a list of strings. -/
def joinLines : List String → String
  | [] => ""
  | [t] => t
  | t :: ts => t ++ "\n" ++ joinLines ts

/-- The per-page expression  page.extract_text() or "" : a page that yields
no extractable text (None or the empty string) contributes the empty
string. -/
def pageText (p : Option String) : String := p.getD ""

/-- contract_text for a parsed PDF: the newline join of the per-page
texts. -/
def pdfExtract (pages : List (Option String)) : String :=
  joinLines (pages.map pageText)

/-- The whole PDF upload branch: on a successful parse, contract_text is
the extracted join and nothing is displayed; when PdfReader raises on a
corrupted blob, contract_text keeps its initial empty value and the
Could not read PDF error is displayed instead of propagating. -/
def uploadedPdfText (parse : Except String (List (Option String))) : String × List String :=
  match parse with
  | .ok pages => (pdfExtract pages, [])
  | .error e => ("", ["Could not read PDF: " ++ e])

/- ----------------------------------------------------------------
Function 1: Contract Analysis and Review (lines 199-222)
---------------------------------------------------------------- -/

/-- The outcome of pressing a submit button: the (prompt, system_prompt)
pair handed to make_api_request when validation passes, and the st.warning
messages displayed when it does not. -/
structure SubmitOutcome where
  apiCall : Option (String × String)
  warnings : List String

/-- The contract-analysis system prompt template (lines 201-212), with the
analysis type and contract type lowercased and the multiselect focus areas
comma-joined or defaulted. -/
def contractSystemPrompt (analysis_type : String) (focus_areas : List String)
    (contract_type : String) : String :=
  "You are an expert legal contract analyst. Analyze the provided contract with focus on "
    ++ pyLower analysis_type
    ++ ". \n            Pay special attention to: "
    ++ joinOrDefault focus_areas "all standard contract provisions"
    ++ ".\n            This appears to be a "
    ++ pyLower contract_type
    ++ " contract.\n            \n            Provide a structured analysis including:\n            1. Executive Summary\n            2. Key Terms and Conditions\n            3. Potential Risks and Red Flags\n            4. Recommendations\n            5. Missing Clauses (if any)\n            \n            Format your response clearly with headings and bullet points."

/-- The Analyze Contract button handler: requires a truthy contract text
with truthy strip, then calls make_api_request with the contract text
itself as the user prompt. -/
def contractSubmit (contract_text analysis_type : String) (focus_areas : List String)
    (contract_type : String) : SubmitOutcome :=
  if pyTruthy contract_text && pyTruthy (pyStrip contract_text) then
    { apiCall := some (contract_text, contractSystemPrompt analysis_type focus_areas contract_type)
    , warnings := [] }
  else
    { apiCall := none
    , warnings := ["Please provide contract text or upload a contract file to analyze."] }

/- ----------------------------------------------------------------
Function 2: Legal Document Drafting (lines 246-295)
---------------------------------------------------------------- -/

/-- The fields of the drafting form.  duration and compensation are the
locals bound by the widget statements that only run for two document
types: none models the name being absent from locals(). -/
structure DraftInput where
  document_type : String
  document_details : String
  jurisdiction : String
  parties : String
  duration : Option String
  compensation : Option String

/-- The condition of line 246: document_type in the two-element list that
gates rendering of the duration and compensation inputs. -/
def draftingBindsExtras (document_type : String) : Bool :=
  document_type = "Employment Contract" || document_type = "Service Agreement"

/-- The drafting page state as the widget code builds it: duration and
compensation are bound exactly when the document type renders their
inputs. -/
def mkDraftInput (document_type document_details jurisdiction parties dWidget cWidget : String) :
    DraftInput :=
  { document_type := document_type
  , document_details := document_details
  , jurisdiction := jurisdiction
  , parties := parties
  , duration := if draftingBindsExtras document_type then some dWidget else none
  , compensation := if draftingBindsExtras document_type then some cWidget else none }

/-- Evaluating a bare reference to a conditionally bound local name:
raises NameError when the name is unbound. -/
def refLocal (v : Option String) : Except String String :=
  match v with
  | some s => Except.ok s
  | none => Except.error "NameError: name is not defined"

/-- The guarded expression of line 277:  duration if duration in locals()
else N/A .  The membership test is exactly boundness of the name. -/
def guardedLocal (v : Option String) : Except String String :=
  if v.isSome then refLocal v else Except.ok "N/A"

/-- The drafting system prompt template (lines 260-271). -/
def draftSystemPrompt (document_type jurisdiction : String) : String :=
  "You are an expert legal document drafter. Create a comprehensive "
    ++ document_type
    ++ " based on the provided requirements.\n            \n            Include standard legal provisions appropriate for this document type, considering the jurisdiction: "
    ++ (if pyTruthy jurisdiction then jurisdiction else "general")
    ++ ".\n            \n            Structure the document professionally with:\n            1. Title and parties identification\n            2. Recitals/Background\n            3. Main terms and conditions\n            4. Standard legal clauses\n            5. Signature blocks\n            \n            Make it legally sound but clearly written. Include appropriate legal disclaimers."

/-- full_prompt of lines 273-277: the structured field restatement, with
the two conditionally bound locals rendered through their locals() guard.
The Except propagates a NameError were one ever raised. -/
def draftFullPrompt (f : DraftInput) : Except String String := do
  let d ← guardedLocal f.duration
  let c ← guardedLocal f.compensation
  Except.ok ("Document Type: " ++ f.document_type
    ++ "\n            Details: " ++ f.document_details
    ++ "\n            Parties: " ++ (if pyTruthy f.parties then f.parties else "Not specified")
    ++ "\n            Jurisdiction: "
    ++ (if pyTruthy f.jurisdiction then f.jurisdiction else "Not specified")
    ++ "\n            Additional Info: Duration: " ++ d
    ++ ", Compensation: " ++ c)

/- ----------------------------------------------------------------
Function 3: Case Law Research Assistant (lines 334-363)
---------------------------------------------------------------- -/

/-- The research system prompt template (lines 336-349): the jurisdiction
multiselect is comma-joined or defaults to all jurisdictions. -/
def researchSystemPrompt (jurisdiction_filter : List String) (case_type time_period : String) :
    String :=
  "You are an expert Malaysia legal researcher. Research and provide information about relevant case law for the given legal issue.\n            \n            Focus on: "
    ++ joinOrDefault jurisdiction_filter "all jurisdictions"
    ++ "\n            Case type: " ++ case_type
    ++ "\n            Time period: " ++ time_period
    ++ "\n            \n            Provide a comprehensive research summary including:\n            1. Most relevant landmark/precedent cases\n            2. Key legal principles established\n            3. Recent developments or trends\n            4. Distinguishing factors and exceptions\n            5. Practical applications and implications\n            \n            Cite cases properly and explain their relevance to the issue."

/-- research_query of lines 351-353, the user prompt: note that the
jurisdiction multiselect is interpolated directly, so the Python list repr
with brackets and quotes appears in the prompt. -/
def researchQuery (legal_issue case_context : String) (jurisdiction_filter : List String)
    (case_type time_period : String) : String :=
  "Legal Issue: " ++ legal_issue
    ++ "\n            Context: " ++ (if pyTruthy case_context then case_context else "Not provided")
    ++ "\n            Research Parameters: Jurisdiction: " ++ pyListRepr jurisdiction_filter
    ++ ", Type: " ++ case_type
    ++ ", Period: " ++ time_period

/- ----------------------------------------------------------------
Function 4: Legal Memorandum Generator (lines 405-448)
---------------------------------------------------------------- -/

/-- The fields collected by the memorandum form. -/
structure MemoFields where
  memo_to : String
  memo_from : String
  memo_subject : String
  facts : String
  legal_question : String
  memo_type : String
  priority : String
  analysis_depth : String
  include_recommendations : Bool

/-- The memo system prompt template (lines 407-421). -/
def memoSystemPrompt (f : MemoFields) : String :=
  "You are an expert legal writer creating a professional legal memorandum. \n            \n            Create a "
    ++ pyLower f.memo_type
    ++ " with " ++ pyLower f.analysis_depth
    ++ " level of detail.\n            Priority: " ++ f.priority
    ++ "\n            Include recommendations: " ++ pyBoolStr f.include_recommendations
    ++ "\n            \n            Structure the memorandum professionally:\n            1. Header (To, From, Date, Subject)\n            2. Executive Summary\n            3. Statement of Facts\n            4. Legal Analysis\n            5. Conclusion\n            "
    ++ (if f.include_recommendations then "6. Recommendations" else "")
    ++ "\n            \n            Use proper legal writing style with clear headings and logical flow."

/-- memo_content of lines 423-430, the user prompt: every field is
restated verbatim behind its label, including To and From. -/
def memoContent (f : MemoFields) : String :=
  "MEMORANDUM DETAILS:\n            To: " ++ f.memo_to
    ++ "\n            From: " ++ f.memo_from
    ++ "\n            Subject: " ++ f.memo_subject
    ++ "\n            Type: " ++ f.memo_type
    ++ "\n            \n            Facts: " ++ f.facts
    ++ "\n            Legal Questions: " ++ f.legal_question

/-- The validation gate of line 406:  all of memo_subject, facts and
legal_question are truthy, that is, non-empty as raw strings. -/
def memoValidGate (f : MemoFields) : Bool :=
  pyTruthy f.memo_subject && pyTruthy f.facts && pyTruthy f.legal_question

/-- The Generate Memorandum button handler: the gate is checked before
make_api_request is reached; on failure only the warning is displayed. -/
def memoSubmit (f : MemoFields) : SubmitOutcome :=
  if memoValidGate f then
    { apiCall := some (memoContent f, memoSystemPrompt f), warnings := [] }
  else
    { apiCall := none
    , warnings := ["Please fill in all required fields (Subject, Facts, and Legal Questions)."] }

/- ----------------------------------------------------------------
Function 5: Regulatory Compliance Checker (lines 494-533)
---------------------------------------------------------------- -/

/-- The compliance system prompt template (lines 496-511): both
multiselects are comma-joined, with the named defaults Not specified and
General compliance when empty. -/
def complianceSystemPrompt (industry business_size : String)
    (geographic_scope compliance_areas : List String) : String :=
  "You are an expert regulatory compliance consultant. Analyze the provided business description for compliance requirements in the "
    ++ industry
    ++ " sector.\n            \n            Consider:\n            - Business size: " ++ business_size
    ++ "\n            - Geographic scope: " ++ joinOrDefault geographic_scope "Not specified"
    ++ "\n            - Focus areas: " ++ joinOrDefault compliance_areas "General compliance"
    ++ "\n            \n            Provide a comprehensive compliance analysis including:\n            1. Applicable Regulations and Laws\n            2. Current Compliance Status Assessment\n            3. Required Actions and Documentation\n            4. Risk Areas and Potential Violations\n            5. Implementation Timeline and Priorities\n            6. Ongoing Compliance Requirements\n            \n            Be specific about regulatory requirements and practical steps."

/-- compliance_query of lines 513-516, the user prompt: both multiselects
are interpolated directly, so their Python list repr appears in the
prompt, with two bare brackets for an empty selection. -/
def complianceQuery (industry business_description specific_concerns business_size : String)
    (geographic_scope compliance_areas : List String) : String :=
  "Industry: " ++ industry
    ++ "\n            Business Description: " ++ business_description
    ++ "\n            Specific Concerns: "
    ++ (if pyTruthy specific_concerns then specific_concerns else "General compliance review")
    ++ "\n            Business Context: Size: " ++ business_size
    ++ ", Geographic: " ++ pyListRepr geographic_scope
    ++ ", Focus: " ++ pyListRepr compliance_areas

/- ----------------------------------------------------------------
Concrete fixtures used by witnesses and counterexamples
---------------------------------------------------------------- -/

/-- A memo submission whose Subject is the empty string and whose other
required fields are filled. -/
def memoEmptySubject : MemoFields :=
  { memo_to := "Senior Partner", memo_from := "Associate Attorney", memo_subject := ""
  , facts := "F", legal_question := "Q", memo_type := "Legal Research Memo"
  , priority := "Standard", analysis_depth := "Brief Summary"
  , include_recommendations := true }

/-- A memo submission whose three required fields hold a single space
each: falsy after strip, truthy raw. -/
def memoWhitespace : MemoFields :=
  { memo_to := "", memo_from := "", memo_subject := " "
  , facts := " ", legal_question := " ", memo_type := "Legal Research Memo"
  , priority := "Standard", analysis_depth := "Brief Summary"
  , include_recommendations := true }

/-- A valid memo submission whose optional To field is empty. -/
def memoBlankTo : MemoFields :=
  { memo_to := "", memo_from := "Associate Attorney", memo_subject := "S"
  , facts := "F", legal_question := "Q", memo_type := "Legal Research Memo"
  , priority := "Standard", analysis_depth := "Brief Summary"
  , include_recommendations := true }

/- ----------------------------------------------------------------
Helper lemmas
---------------------------------------------------------------- -/

/-- The newline join of a non-empty list of newline-free strings contains
exactly one newline per boundary between consecutive elements. -/
theorem joinLines_count : (l : List String) → l ≠ [] →
    (∀ t ∈ l, t.data.count '\n' = 0) →
    (joinLines l).data.count '\n' = l.length - 1
  | [], hne, _ => absurd rfl hne
  | [t], _, h => by simpa [joinLines] using h t (by simp)
  | t :: t' :: ts, _, h => by
    have ht : t.data.count '\n' = 0 := h t (by simp)
    have ih := joinLines_count (t' :: ts) (by simp)
      (fun x hx => h x (List.mem_cons_of_mem _ hx))
    simp only [joinLines, String.data_append, List.count_append, ht, ih, List.length_cons]
    simp [List.count_cons]
    omega

/- ----------------------------------------------------------------
Claim theorems
---------------------------------------------------------------- -/

/-- C2: with no API credential configured (the stored api_key is the empty
string), make_api_request displays the configuration error, returns None,
and issues zero network requests, for every prompt, system prompt and
transport. -/
theorem missing_key_no_request (prompt sysP : String)
    (transport : ApiRequest → TransportResult) :
    (makeApiRequest "" transport prompt sysP).result = none ∧
    (makeApiRequest "" transport prompt sysP).requests = [] ∧
    (makeApiRequest "" transport prompt sysP).errors =
      ["Please enter your OpenRouter API key in the sidebar."] :=
  ⟨rfl, rfl, rfl⟩

/-- C3 counterexample: a non-2xx response is not always turned into a
classified failure: a 300 response whose body parses as a completion is
returned as a success with no error displayed, because raise_for_status
only raises for status 400 and above. -/
theorem non2xx_not_always_classified :
    (makeApiRequest "k"
        (fun _ => TransportResult.response 300 "Multiple Choices" (Except.ok "hello"))
        "p" "s").result = some "hello" ∧
    (makeApiRequest "k"
        (fun _ => TransportResult.response 300 "Multiple Choices" (Except.ok "hello"))
        "p" "s").errors = [] := by
  constructor <;> rfl

/-- C3 amended: when the transport returns a 4xx or 5xx response, the call
returns None, does not propagate an exception, and displays a single
classified API request failed error whose text carries the status code. -/
theorem http_error_classified (key prompt sysP reason : String) (status : Nat)
    (parse : Except String String) (transport : ApiRequest → TransportResult)
    (hk : key ≠ "")
    (ht : transport (buildRequest key prompt sysP) =
      TransportResult.response status reason parse)
    (h4 : 400 ≤ status) (h6 : status < 600) :
    (makeApiRequest key transport prompt sysP).result = none ∧
    (makeApiRequest key transport prompt sysP).errors =
      ["API request failed: " ++ httpErrorMsg status reason openrouterUrl] ∧
    (∃ rest, httpErrorMsg status reason openrouterUrl = toString status ++ rest) := by
  have hmain : makeApiRequest key transport prompt sysP =
      { result := none
      , errors := ["API request failed: " ++ httpErrorMsg status reason openrouterUrl]
      , requests := [buildRequest key prompt sysP] } := by
    simp only [makeApiRequest, if_neg hk, ht]
    rw [if_pos ⟨h4, h6⟩]
  refine ⟨by rw [hmain], by rw [hmain], ?_⟩
  by_cases h5 : status < 500
  · exact ⟨_, by rw [httpErrorMsg, if_pos h5]⟩
  · exact ⟨_, by rw [httpErrorMsg, if_neg h5]⟩

/-- C3 witness: the amended statement instantiated at a mocked transport
answering HTTP 401 Unauthorized. -/
theorem http_error_classified_witness :
    (makeApiRequest "k"
        (fun _ => TransportResult.response 401 "Unauthorized" (Except.ok "x"))
        "p" "s").result = none ∧
    (makeApiRequest "k"
        (fun _ => TransportResult.response 401 "Unauthorized" (Except.ok "x"))
        "p" "s").errors =
      ["API request failed: " ++ httpErrorMsg 401 "Unauthorized" openrouterUrl] ∧
    (∃ rest, httpErrorMsg 401 "Unauthorized" openrouterUrl = toString 401 ++ rest) :=
  http_error_classified "k" "p" "s" "Unauthorized" 401 (Except.ok "x")
    (fun _ => TransportResult.response 401 "Unauthorized" (Except.ok "x"))
    (by decide) rfl (by decide) (by decide)

/-- C4: a memorandum submission with an empty Subject is rejected with the
required-fields warning and the completion call is never reached, for
every assignment of the remaining fields. -/
theorem empty_subject_rejected (f : MemoFields) (h : f.memo_subject = "") :
    (memoSubmit f).apiCall = none ∧
    (memoSubmit f).warnings =
      ["Please fill in all required fields (Subject, Facts, and Legal Questions)."] := by
  have hg : memoValidGate f = false := by
    simp [memoValidGate, pyTruthy, h]
  simp [memoSubmit, hg]

/-- C4 witness: the rejection at a concrete submission whose Subject is
empty and whose other required fields are filled. -/
theorem empty_subject_rejected_witness :
    (memoSubmit memoEmptySubject).apiCall = none ∧
    (memoSubmit memoEmptySubject).warnings =
      ["Please fill in all required fields (Subject, Facts, and Legal Questions)."] :=
  empty_subject_rejected memoEmptySubject rfl

/-- C8: for every non-empty credential, make_api_request issues exactly
one request, and that request posts to the fixed URL with a bearer
authorization header, the fixed model identifier, exactly the system
message followed by the user message, max_tokens 2000, temperature 3/10
and a 60 second client-side timeout. -/
theorem request_shape (key prompt sysP : String)
    (transport : ApiRequest → TransportResult) (hk : key ≠ "") :
    (makeApiRequest key transport prompt sysP).requests = [buildRequest key prompt sysP] ∧
    (buildRequest key prompt sysP).url = openrouterUrl ∧
    (buildRequest key prompt sysP).headers =
      [("Authorization", "Bearer " ++ key), ("Content-Type", "application/json")] ∧
    (buildRequest key prompt sysP).body.model = "openai/gpt-4o-mini" ∧
    (buildRequest key prompt sysP).body.messages =
      [{ role := "system", content := sysP }, { role := "user", content := prompt }] ∧
    (buildRequest key prompt sysP).body.max_tokens = 2000 ∧
    (buildRequest key prompt sysP).body.temperature = 3 / 10 ∧
    (buildRequest key prompt sysP).timeout = 60 := by
  refine ⟨?_, rfl, rfl, rfl, rfl, rfl, rfl, rfl⟩
  simp only [makeApiRequest, if_neg hk]
  cases htr : transport (buildRequest key prompt sysP) with
  | exn d => rfl
  | response s r p =>
    dsimp only
    by_cases hs : 400 ≤ s ∧ s < 600
    · rw [if_pos hs]
    · rw [if_neg hs]
      cases p <;> rfl

/-- C8 witness: the request shape at a concrete credential, prompt pair
and transport. -/
theorem request_shape_witness :
    (makeApiRequest "k" (fun _ => TransportResult.exn "down") "p" "s").requests =
      [buildRequest "k" "p" "s"] ∧
    (buildRequest "k" "p" "s").url = openrouterUrl ∧
    (buildRequest "k" "p" "s").headers =
      [("Authorization", "Bearer " ++ "k"), ("Content-Type", "application/json")] ∧
    (buildRequest "k" "p" "s").body.model = "openai/gpt-4o-mini" ∧
    (buildRequest "k" "p" "s").body.messages =
      [{ role := "system", content := "s" }, { role := "user", content := "p" }] ∧
    (buildRequest "k" "p" "s").body.max_tokens = 2000 ∧
    (buildRequest "k" "p" "s").body.temperature = 3 / 10 ∧
    (buildRequest "k" "p" "s").timeout = 60 :=
  request_shape "k" "p" "s" (fun _ => TransportResult.exn "down") (by decide)

/-- C9: the memorandum required-field gate tests raw truthiness only: a
completion call is issued exactly when Subject, Facts and Legal Question
are each non-empty as raw strings, so whitespace-only values pass the
gate, as the second conjunct shows on all-blank required fields. -/
theorem memo_validation_truthiness :
    (∀ f : MemoFields,
      ((memoSubmit f).apiCall.isSome = true ↔
        (f.memo_subject ≠ "" ∧ f.facts ≠ "" ∧ f.legal_question ≠ ""))) ∧
    (memoSubmit memoWhitespace).apiCall.isSome = true := by
  constructor
  · intro f
    have hgate : (memoValidGate f = true) ↔
        (f.memo_subject ≠ "" ∧ f.facts ≠ "" ∧ f.legal_question ≠ "") := by
      simp [memoValidGate, pyTruthy, and_assoc]
    rw [← hgate]
    cases hg : memoValidGate f <;> simp [memoSubmit, hg]
  · rfl

/-- C1 counterexample: in the scenario analysis_type Risk Assessment,
focus_areas empty, contract_type NDA, the composed system prompt does not
contain the literal substring Risk Assessment, because the analysis type
is lowercased before substitution into the template. -/
theorem contract_scenario_cx :
    ¬ ("Risk Assessment".toList <:+:
        (contractSystemPrompt "Risk Assessment" [] "NDA").toList) := by
  decide

/-- C1 amended: in the same scenario the completion call receives the
contract body Sample clause text. verbatim as the user prompt, and the
system prompt contains the lowercased analysis type risk assessment
together with the default focus phrase all standard contract
provisions. -/
theorem contract_scenario_amended :
    (contractSubmit "Sample clause text." "Risk Assessment" [] "NDA").apiCall =
      some ("Sample clause text.", contractSystemPrompt "Risk Assessment" [] "NDA") ∧
    ("risk assessment".toList <:+:
      (contractSystemPrompt "Risk Assessment" [] "NDA").toList) ∧
    ("all standard contract provisions".toList <:+:
      (contractSystemPrompt "Risk Assessment" [] "NDA").toList) := by
  refine ⟨rfl, by decide, by decide⟩

/-- C5 counterexample: the memo user prompt renders the empty optional To
field as a blank substitution after the To label, and no not-specified or
not-provided style placeholder appears anywhere in that prompt. -/
theorem blank_optional_cx :
    memoContent memoBlankTo =
      "MEMORANDUM DETAILS:\n            To: \n            From: Associate Attorney\n            Subject: S\n            Type: Legal Research Memo\n            \n            Facts: F\n            Legal Questions: Q" ∧
    ¬ ("pecified".toList <:+: (memoContent memoBlankTo).toList) ∧
    ¬ ("rovided".toList <:+: (memoContent memoBlankTo).toList) := by
  refine ⟨rfl, by decide, by decide⟩

/-- C5 amended: the optional fields that the code guards with a
conditional expression render an explicit placeholder when empty, namely
Not specified for drafting Parties and Jurisdiction, general in the
drafting system prompt, Not provided for the research Context, General
compliance review for the compliance Specific Concerns, and N/A for an
unbound Duration and Compensation; but the memo To field is restated
verbatim, so an empty To renders blank, and a Duration bound to an empty
entry likewise renders blank rather than N/A. -/
theorem optional_placeholders_amended :
    (∀ dt dd, draftFullPrompt
        { document_type := dt, document_details := dd, jurisdiction := "", parties := ""
        , duration := none, compensation := none } =
      Except.ok ("Document Type: " ++ dt
        ++ "\n            Details: " ++ dd
        ++ "\n            Parties: " ++ "Not specified"
        ++ "\n            Jurisdiction: " ++ "Not specified"
        ++ "\n            Additional Info: Duration: " ++ "N/A"
        ++ ", Compensation: " ++ "N/A")) ∧
    (∀ dt, draftSystemPrompt dt "" =
      "You are an expert legal document drafter. Create a comprehensive "
        ++ dt
        ++ " based on the provided requirements.\n            \n            Include standard legal provisions appropriate for this document type, considering the jurisdiction: "
        ++ "general"
        ++ ".\n            \n            Structure the document professionally with:\n            1. Title and parties identification\n            2. Recitals/Background\n            3. Main terms and conditions\n            4. Standard legal clauses\n            5. Signature blocks\n            \n            Make it legally sound but clearly written. Include appropriate legal disclaimers.") ∧
    (∀ li jf ctp tp, researchQuery li "" jf ctp tp =
      "Legal Issue: " ++ li
        ++ "\n            Context: " ++ "Not provided"
        ++ "\n            Research Parameters: Jurisdiction: " ++ pyListRepr jf
        ++ ", Type: " ++ ctp
        ++ ", Period: " ++ tp) ∧
    (∀ ind bd bs gs ca, complianceQuery ind bd "" bs gs ca =
      "Industry: " ++ ind
        ++ "\n            Business Description: " ++ bd
        ++ "\n            Specific Concerns: " ++ "General compliance review"
        ++ "\n            Business Context: Size: " ++ bs
        ++ ", Geographic: " ++ pyListRepr gs
        ++ ", Focus: " ++ pyListRepr ca) ∧
    (∀ mfrom ms fa lq mt pr ad ir, memoContent
        { memo_to := "", memo_from := mfrom, memo_subject := ms, facts := fa
        , legal_question := lq, memo_type := mt, priority := pr
        , analysis_depth := ad, include_recommendations := ir } =
      "MEMORANDUM DETAILS:\n            To: " ++ ""
        ++ "\n            From: " ++ mfrom
        ++ "\n            Subject: " ++ ms
        ++ "\n            Type: " ++ mt
        ++ "\n            \n            Facts: " ++ fa
        ++ "\n            Legal Questions: " ++ lq) ∧
    (∀ dd j p cW, draftFullPrompt (mkDraftInput "Employment Contract" dd j p "" cW) =
      Except.ok ("Document Type: " ++ "Employment Contract"
        ++ "\n            Details: " ++ dd
        ++ "\n            Parties: " ++ (if pyTruthy p then p else "Not specified")
        ++ "\n            Jurisdiction: " ++ (if pyTruthy j then j else "Not specified")
        ++ "\n            Additional Info: Duration: " ++ ""
        ++ ", Compensation: " ++ cW)) := by
  refine ⟨fun dt dd => rfl, fun dt => rfl, fun li jf ctp tp => rfl,
    fun ind bd bs gs ca => rfl, fun mfrom ms fa lq mt pr ad ir => rfl,
    fun dd j p cW => rfl⟩

/-- C6 counterexample: in the compliance user prompt an empty multiselect
does not render as a named default but as the bare Python list repr, two
brackets, and no named default appears for it in that prompt. -/
theorem multiselect_cx :
    ("Geographic: [], Focus: []".toList <:+:
      (complianceQuery "Technology (GDPR, CCPA)" "B" "C" "Startup/Small" [] []).toList) ∧
    ¬ ("Not specified".toList <:+:
      (complianceQuery "Technology (GDPR, CCPA)" "B" "C" "Startup/Small" [] []).toList) ∧
    ¬ ("General compliance".toList <:+:
      (complianceQuery "Technology (GDPR, CCPA)" "B" "C" "Startup/Small" [] []).toList) := by
  refine ⟨by decide, by decide, by decide⟩

/-- C6 amended: in the system prompts every multiselect is serialized as a
comma-joined list when non-empty and as its named default phrase when
empty; in the research and compliance user prompts, however, the
multiselect is interpolated as the raw Python list repr, two bare brackets
when empty and bracketed single-quoted items when not. -/
theorem multiselect_amended :
    (∀ a x fs ct, contractSystemPrompt a (x :: fs) ct =
      "You are an expert legal contract analyst. Analyze the provided contract with focus on "
        ++ pyLower a
        ++ ". \n            Pay special attention to: "
        ++ String.intercalate ", " (x :: fs)
        ++ ".\n            This appears to be a "
        ++ pyLower ct
        ++ " contract.\n            \n            Provide a structured analysis including:\n            1. Executive Summary\n            2. Key Terms and Conditions\n            3. Potential Risks and Red Flags\n            4. Recommendations\n            5. Missing Clauses (if any)\n            \n            Format your response clearly with headings and bullet points.") ∧
    (∀ a ct, contractSystemPrompt a [] ct =
      "You are an expert legal contract analyst. Analyze the provided contract with focus on "
        ++ pyLower a
        ++ ". \n            Pay special attention to: "
        ++ "all standard contract provisions"
        ++ ".\n            This appears to be a "
        ++ pyLower ct
        ++ " contract.\n            \n            Provide a structured analysis including:\n            1. Executive Summary\n            2. Key Terms and Conditions\n            3. Potential Risks and Red Flags\n            4. Recommendations\n            5. Missing Clauses (if any)\n            \n            Format your response clearly with headings and bullet points.") ∧
    (∀ x js ctp tp, researchSystemPrompt (x :: js) ctp tp =
      "You are an expert Malaysia legal researcher. Research and provide information about relevant case law for the given legal issue.\n            \n            Focus on: "
        ++ String.intercalate ", " (x :: js)
        ++ "\n            Case type: " ++ ctp
        ++ "\n            Time period: " ++ tp
        ++ "\n            \n            Provide a comprehensive research summary including:\n            1. Most relevant landmark/precedent cases\n            2. Key legal principles established\n            3. Recent developments or trends\n            4. Distinguishing factors and exceptions\n            5. Practical applications and implications\n            \n            Cite cases properly and explain their relevance to the issue.") ∧
    (∀ ctp tp, researchSystemPrompt [] ctp tp =
      "You are an expert Malaysia legal researcher. Research and provide information about relevant case law for the given legal issue.\n            \n            Focus on: "
        ++ "all jurisdictions"
        ++ "\n            Case type: " ++ ctp
        ++ "\n            Time period: " ++ tp
        ++ "\n            \n            Provide a comprehensive research summary including:\n            1. Most relevant landmark/precedent cases\n            2. Key legal principles established\n            3. Recent developments or trends\n            4. Distinguishing factors and exceptions\n            5. Practical applications and implications\n            \n            Cite cases properly and explain their relevance to the issue.") ∧
    (∀ ind bs x gs y ca, complianceSystemPrompt ind bs (x :: gs) (y :: ca) =
      "You are an expert regulatory compliance consultant. Analyze the provided business description for compliance requirements in the "
        ++ ind
        ++ " sector.\n            \n            Consider:\n            - Business size: " ++ bs
        ++ "\n            - Geographic scope: " ++ String.intercalate ", " (x :: gs)
        ++ "\n            - Focus areas: " ++ String.intercalate ", " (y :: ca)
        ++ "\n            \n            Provide a comprehensive compliance analysis including:\n            1. Applicable Regulations and Laws\n            2. Current Compliance Status Assessment\n            3. Required Actions and Documentation\n            4. Risk Areas and Potential Violations\n            5. Implementation Timeline and Priorities\n            6. Ongoing Compliance Requirements\n            \n            Be specific about regulatory requirements and practical steps.") ∧
    (∀ ind bs, complianceSystemPrompt ind bs [] [] =
      "You are an expert regulatory compliance consultant. Analyze the provided business description for compliance requirements in the "
        ++ ind
        ++ " sector.\n            \n            Consider:\n            - Business size: " ++ bs
        ++ "\n            - Geographic scope: " ++ "Not specified"
        ++ "\n            - Focus areas: " ++ "General compliance"
        ++ "\n            \n            Provide a comprehensive compliance analysis including:\n            1. Applicable Regulations and Laws\n            2. Current Compliance Status Assessment\n            3. Required Actions and Documentation\n            4. Risk Areas and Potential Violations\n            5. Implementation Timeline and Priorities\n            6. Ongoing Compliance Requirements\n            \n            Be specific about regulatory requirements and practical steps.") ∧
    (∀ li cc ctp tp, researchQuery li cc [] ctp tp =
      "Legal Issue: " ++ li
        ++ "\n            Context: " ++ (if pyTruthy cc then cc else "Not provided")
        ++ "\n            Research Parameters: Jurisdiction: " ++ "[]"
        ++ ", Type: " ++ ctp
        ++ ", Period: " ++ tp) ∧
    (∀ ind bd sc bs, complianceQuery ind bd sc bs [] [] =
      "Industry: " ++ ind
        ++ "\n            Business Description: " ++ bd
        ++ "\n            Specific Concerns: "
        ++ (if pyTruthy sc then sc else "General compliance review")
        ++ "\n            Business Context: Size: " ++ bs
        ++ ", Geographic: " ++ "[]"
        ++ ", Focus: " ++ "[]") ∧
    (∀ ind bd sc bs x, complianceQuery ind bd sc bs [x] [] =
      "Industry: " ++ ind
        ++ "\n            Business Description: " ++ bd
        ++ "\n            Specific Concerns: "
        ++ (if pyTruthy sc then sc else "General compliance review")
        ++ "\n            Business Context: Size: " ++ bs
        ++ ", Geographic: " ++ ("[" ++ (pySq ++ x ++ pySq) ++ "]")
        ++ ", Focus: " ++ "[]") := by
  refine ⟨fun a x fs ct => rfl, fun a ct => rfl, fun x js ctp tp => rfl,
    fun ctp tp => rfl, fun ind bs x gs y ca => rfl, fun ind bs => rfl,
    fun li cc ctp tp => rfl, fun ind bd sc bs => rfl, fun ind bd sc bs x => rfl⟩

/-- C7: PDF extraction joins the per-page texts with one newline separator
per boundary between consecutive pages, so a document of N newline-free
pages yields exactly N-1 newlines; a page with no extractable text
contributes the empty string, interchangeable with a page whose text is
empty; and a corrupted blob yields the displayed Could not read PDF error
with contract_text left empty instead of a raised exception. -/
theorem pdf_extract_spec :
    (∀ p, pdfExtract [p] = pageText p) ∧
    (∀ p q ps, pdfExtract (p :: q :: ps) = pageText p ++ "\n" ++ pdfExtract (q :: ps)) ∧
    (∀ pages : List (Option String), pages ≠ [] →
      (∀ p ∈ pages, (pageText p).data.count '\n' = 0) →
      (pdfExtract pages).data.count '\n' = pages.length - 1) ∧
    (∀ pre post, pdfExtract (pre ++ none :: post) = pdfExtract (pre ++ some "" :: post)) ∧
    (∀ e, uploadedPdfText (Except.error e) = ("", ["Could not read PDF: " ++ e])) := by
  refine ⟨fun p => rfl, fun p q ps => rfl, ?_, ?_, fun e => rfl⟩
  · intro pages hne h
    have hall : ∀ t ∈ pages.map pageText, t.data.count '\n' = 0 := by
      intro t ht
      rcases List.mem_map.mp ht with ⟨p, hp, rfl⟩
      exact h p hp
    have hlen := joinLines_count (pages.map pageText) (by simpa using hne) hall
    simpa [pdfExtract] using hlen
  · intro pre post
    simp [pdfExtract, List.map_append, pageText]

/-- C7 witness: a three-page document, one page without extractable text,
yields two newlines. -/
theorem pdf_extract_spec_witness :
    (pdfExtract [some "a", none, some "b"]).data.count '\n' = 2 :=
  pdf_extract_spec.2.2.1 [some "a", none, some "b"] (by decide) (by decide)

/-- C10: drafting prompt composition is total for every document type: the
locals membership guard yields the widget value exactly when the document
type binds the duration and compensation inputs and the N/A placeholder
otherwise, never a NameError, although an unguarded reference to the
unbound name would have raised one. -/
theorem draft_prompt_total :
    (∀ v, guardedLocal v = Except.ok (v.getD "N/A")) ∧
    (∀ dt dd j p dW cW,
      draftFullPrompt (mkDraftInput dt dd j p dW cW) =
        Except.ok ("Document Type: " ++ dt
          ++ "\n            Details: " ++ dd
          ++ "\n            Parties: " ++ (if pyTruthy p then p else "Not specified")
          ++ "\n            Jurisdiction: " ++ (if pyTruthy j then j else "Not specified")
          ++ "\n            Additional Info: Duration: "
          ++ (if draftingBindsExtras dt then dW else "N/A")
          ++ ", Compensation: " ++ (if draftingBindsExtras dt then cW else "N/A"))) ∧
    (refLocal none = Except.error "NameError: name is not defined") := by
  refine ⟨?_, ?_, rfl⟩
  · intro v
    cases v <;> rfl
  · intro dt dd j p dW cW
    cases hb : draftingBindsExtras dt <;>
      simp [draftFullPrompt, mkDraftInput, hb, guardedLocal, refLocal] <;> rfl

end LegalAI
